import Mathlib

/-!
Shallow embedding of `taskflow/engines/action_engine/executor.py` and proofs
about its operation runners (`_execute_task`, `_revert_task`), the scoped
callback binding (`_autobind`), and the serial and parallel task executors.

Modelling choices (all traceable to the Python source):
* Python exceptions are modelled by the type `Exc`; a computation that may
  raise returns `Except Exc _`.
* Python values flowing through arguments and results are modelled by the
  closed value universe `V`; `misc.Failure()` capturing the current exception
  `e` is modelled by the value `V.fail e`.
* Python dicts are association lists (`Dict`) with Python's assignment
  semantics (`dictSet`: update in place keeps the key's position, a new key
  is appended), and dict *objects* live in a small heap (`Heap`) so that
  `arguments.copy()` followed by in-place key assignment is observably
  different from mutating the caller's dict.
* Calls made on the external `task` collaborator (`bind`, `unbind`,
  `execute`, `revert`) are recorded in an event trace (`Ev`), so bind/unbind
  counts and the mapping `revert` is invoked with are observable.
* The worker pool of the parallel executor is a `Pool` with a shutdown flag,
  stored in a `PoolHeap`, so an externally supplied (borrowed) pool can be
  inspected by the caller after the executor is stopped.  Submitting to a
  shut-down pool raises `Exc.runtimeError` (as `concurrent.futures` does);
  calling a method on an absent (`None`) pool raises `Exc.attributeError`.
-/

/-- Identity of a Python exception: the built-in errors the embedding needs
plus arbitrary user-raised faults. -/
inductive Exc : Type where
  | attributeError : Exc
  | runtimeError : Exc
  | user : Nat → Exc
  deriving DecidableEq, Repr

/-- Values carried in argument mappings and results.  `V.fail e` is a
`misc.Failure` object capturing exception `e`. -/
inductive V : Type where
  | none : V
  | nat : Nat → V
  | str : String → V
  | fail : Exc → V
  deriving DecidableEq, Repr

/-- A Python dict from string keys to values, as an association list in
insertion order. -/
abbrev Dict : Type := List (String × V)

/-- Python dict assignment `d[k] = v`: replaces the value at an existing key
keeping its position, otherwise appends the new binding. -/
def dictSet : Dict → String → V → Dict
  | [], k, v => [(k, v)]
  | (k', v') :: rest, k, v =>
      if k' = k then (k, v) :: rest else (k', v') :: dictSet rest k v

/-- Python dict lookup `d[k]` (as an option). -/
def dictLookup : Dict → String → Option V
  | [], _ => Option.none
  | (k', v) :: rest, k => if k' = k then some v else dictLookup rest k

/-- Progress callbacks are opaque to this module: only their identity
matters (they are bound and unbound, never invoked by the runner itself). -/
abbrev Cb : Type := Nat

/-- The default `progress_callback` of the executor methods. -/
def _noop : Cb := 0

/-- Observable calls the runners make on the external `task` collaborator. -/
inductive Ev : Type where
  | bind : String → Cb → Ev
  | unbind : String → Cb → Ev
  | executeCalled : Dict → Ev
  | revertCalled : Dict → Ev
  deriving DecidableEq, Repr

/-- The external task collaborator.  `bindFault` says whether `task.bind`
raises (and which exception); `executeFn` and `revertFn` give the behaviour
of `task.execute(**args)` and `task.revert(**kwargs)`: either a returned
value or a raised exception. -/
structure TaskObj : Type where
  tid : Nat
  bindFault : Option Exc
  executeFn : Dict → Except Exc V
  revertFn : Dict → Except Exc V

/-- The `(task, verb, result)` triple returned by the operation runners. -/
abbrev Outcome : Type := TaskObj × String × V

/-- The `_autobind` context manager: `task.bind(name, cb)` inside a `try`
whose `finally` always runs `task.unbind(name, cb)`.  If `bind` raises, the
`finally` still unbinds and the exception propagates (the `with` body never
runs); otherwise the body runs between one bind and one unbind event. -/
def _autobind (task : TaskObj) (bind_name : String) (bind_cb : Cb)
    (body : TaskObj → List Ev × Except Exc V) : List Ev × Except Exc V :=
  match task.bindFault with
  | some e => ([Ev.unbind bind_name bind_cb], Except.error e)
  | Option.none =>
      let r := body task
      (Ev.bind bind_name bind_cb :: r.1 ++ [Ev.unbind bind_name bind_cb], r.2)

/-- The runner `_execute_task(task, arguments, progress_callback)`: under
`_autobind(task, 'update_progress', progress_callback)` it calls
`task.execute(**arguments)`, converting a raised fault into a Failure value,
and returns `(task, 'executed', result)`. -/
def _execute_task (task : TaskObj) (arguments : Dict) (progress_callback : Cb) :
    List Ev × Except Exc Outcome :=
  let run := _autobind task "update_progress" progress_callback (fun t =>
    match t.executeFn arguments with
    | Except.ok v => ([Ev.executeCalled arguments], Except.ok v)
    | Except.error e => ([Ev.executeCalled arguments], Except.ok (V.fail e)))
  match run with
  | (tr, Except.ok result) => (tr, Except.ok (task, "executed", result))
  | (tr, Except.error e) => (tr, Except.error e)

/-- A heap of dict objects, so that copying and in-place mutation of dicts
are distinguishable.  References are allocation indices below `next`. -/
structure Heap : Type where
  cells : Nat → Dict
  next : Nat

/-- Dereference a dict object. -/
def Heap.get (h : Heap) (r : Nat) : Dict := h.cells r

/-- Allocate a fresh dict object holding `d` (this is `d.copy()` when `d` is
read from another cell). -/
def Heap.alloc (h : Heap) (d : Dict) : Heap × Nat :=
  ({ cells := fun i => if i = h.next then d else h.cells i,
     next := h.next + 1 }, h.next)

/-- Mutate the dict object at `r` in place. -/
def Heap.update (h : Heap) (r : Nat) (f : Dict → Dict) : Heap :=
  { h with cells := fun i => if i = r then f (h.cells i) else h.cells i }

/-- The runner `_revert_task(task, arguments, result, failures,
progress_callback)`: builds `kwargs = arguments.copy()`, assigns
`kwargs['result'] = result` and `kwargs['flow_failures'] = failures` in
place on the copy, then under `_autobind` calls `task.revert(**kwargs)`,
normalising a raised fault into a Failure value, and returns
`(task, 'reverted', result)`. -/
def _revert_task (task : TaskObj) (h : Heap) (argsRef : Nat)
    (result : V) (failures : V) (progress_callback : Cb) :
    Heap × List Ev × Except Exc Outcome :=
  let alloc := Heap.alloc h (Heap.get h argsRef)
  let kwargsRef := alloc.2
  let h1 := Heap.update alloc.1 kwargsRef (fun d => dictSet d "result" result)
  let h2 := Heap.update h1 kwargsRef (fun d => dictSet d "flow_failures" failures)
  let run := _autobind task "update_progress" progress_callback (fun t =>
    match t.revertFn (Heap.get h2 kwargsRef) with
    | Except.ok v => ([Ev.revertCalled (Heap.get h2 kwargsRef)], Except.ok v)
    | Except.error e =>
        ([Ev.revertCalled (Heap.get h2 kwargsRef)], Except.ok (V.fail e)))
  match run with
  | (tr, Except.ok result2) => (h2, tr, Except.ok (task, "reverted", result2))
  | (tr, Except.error e) => (h2, tr, Except.error e)

/-- Number of `bind` events under a given name in a trace. -/
def countBinds (tr : List Ev) (n : String) : Nat :=
  tr.countP (fun ev => match ev with
    | Ev.bind m _ => m == n
    | _ => false)

/-- Number of `unbind` events under a given name in a trace. -/
def countUnbinds (tr : List Ev) (n : String) : Nat :=
  tr.countP (fun ev => match ev with
    | Ev.unbind m _ => m == n
    | _ => false)

/-- A future handle: either already resolved with an outcome (the serial
executor's `_completed_future`) or a pending handle returned by a pool. -/
inductive Future : Type where
  | completed : Outcome → Future
  | pending : Nat → Future

/-- The serial executor has no state of its own (`start`/`stop` are the
inherited no-ops of `TaskExecutorBase`). -/
inductive SerialTaskExecutor : Type where
  | mk : SerialTaskExecutor
  deriving DecidableEq, Repr

/-- Method `SerialTaskExecutor.execute_task`: runs `_execute_task` inline and
wraps the outcome in an already-completed future.  An exception escaping the
runner (only possible from `task.bind`) propagates to the caller. -/
def SerialTaskExecutor.execute_task (task : TaskObj) (arguments : Dict)
    (progress_callback : Cb) : List Ev × Except Exc Future :=
  let run := _execute_task task arguments progress_callback
  match run with
  | (tr, Except.ok out) => (tr, Except.ok (Future.completed out))
  | (tr, Except.error e) => (tr, Except.error e)

/-- Method `SerialTaskExecutor.revert_task`: runs `_revert_task` inline and
wraps the outcome in an already-completed future. -/
def SerialTaskExecutor.revert_task (task : TaskObj) (h : Heap) (argsRef : Nat)
    (result : V) (failures : V) (progress_callback : Cb) :
    Heap × List Ev × Except Exc Future :=
  let run := _revert_task task h argsRef result failures progress_callback
  match run with
  | (h2, tr, Except.ok out) => (h2, tr, Except.ok (Future.completed out))
  | (h2, tr, Except.error e) => (h2, tr, Except.error e)

/-- Method `SerialTaskExecutor.wait_for_any`: `return fs, []`. -/
def SerialTaskExecutor.wait_for_any (fs : List Future) :
    List Future × List Future := (fs, [])

/-- Method `start` inherited from `TaskExecutorBase`: `pass`. -/
def SerialTaskExecutor.start (e : SerialTaskExecutor) :
    SerialTaskExecutor × Except Exc Unit := (e, Except.ok ())

/-- Method `stop` inherited from `TaskExecutorBase`: `pass`. -/
def SerialTaskExecutor.stop (e : SerialTaskExecutor) :
    SerialTaskExecutor × Except Exc Unit := (e, Except.ok ())

/-- A unit of work submitted to a worker pool: the runner function together
with the arguments it was submitted with (`submit(fn, *args)` stores the
callable and its arguments). -/
inductive Submission : Type where
  | execTask : TaskObj → Dict → Cb → Submission
  | revertTask : TaskObj → Dict → V → V → Cb → Submission

/-- A worker pool (`concurrent.futures`-style): a shutdown flag and the work
items accepted so far. -/
structure Pool : Type where
  isShutdown : Bool
  submitted : List Submission

/-- A freshly created `ThreadPoolExecutor`. -/
def freshPool : Pool := { isShutdown := false, submitted := [] }

/-- Method `pool.submit(fn, *args)`: raises a RuntimeError after shutdown,
otherwise records the work item and returns a pending future handle. -/
def Pool.submit (p : Pool) (s : Submission) : Except Exc (Pool × Future) :=
  if p.isShutdown then Except.error Exc.runtimeError
  else Except.ok ({ p with submitted := p.submitted ++ [s] },
                  Future.pending p.submitted.length)

/-- A heap of pool objects, so a borrowed (externally supplied) pool can be
observed by its owner after the executor used it. -/
structure PoolHeap : Type where
  pools : Nat → Pool
  next : Nat

/-- Dereference a pool object. -/
def PoolHeap.get (ph : PoolHeap) (r : Nat) : Pool := ph.pools r

/-- Allocate a fresh pool object. -/
def PoolHeap.alloc (ph : PoolHeap) (p : Pool) : PoolHeap × Nat :=
  ({ pools := fun i => if i = ph.next then p else ph.pools i,
     next := ph.next + 1 }, ph.next)

/-- Overwrite the pool object at `r`. -/
def PoolHeap.set (ph : PoolHeap) (r : Nat) (p : Pool) : PoolHeap :=
  { ph with pools := fun i => if i = r then p else ph.pools i }

/-- A pool heap with no pools allocated yet. -/
def emptyPoolHeap : PoolHeap := { pools := fun _ => freshPool, next := 0 }

/-- State of a `ParallelTaskExecutor`: the (optional) pool reference
`self._executor` and the ownership flag `self._own_executor`. -/
structure ParallelTaskExecutor : Type where
  _executor : Option Nat
  _own_executor : Bool
  deriving DecidableEq, Repr

/-- Constructor `ParallelTaskExecutor.__init__(self, executor=None)`:
stores the supplied pool reference and sets
`self._own_executor = executor is None`. -/
def ParallelTaskExecutor.init (executor : Option Nat) : ParallelTaskExecutor :=
  { _executor := executor, _own_executor := executor.isNone }

/-- Method `ParallelTaskExecutor.start`: if the executor owns its pool it
creates a fresh `ThreadPoolExecutor` and stores the reference; otherwise it
does nothing. -/
def ParallelTaskExecutor.start (ph : PoolHeap) (e : ParallelTaskExecutor) :
    PoolHeap × ParallelTaskExecutor :=
  if e._own_executor then
    let alloc := PoolHeap.alloc ph freshPool
    (alloc.1, { e with _executor := some alloc.2 })
  else (ph, e)

/-- Method `ParallelTaskExecutor.stop`: if the executor owns its pool it
calls `self._executor.shutdown(wait=True)` and clears the reference; with no
pool present (`self._executor is None`) that attribute access raises an
AttributeError and the state is left unchanged.  A borrowed pool is never
touched. -/
def ParallelTaskExecutor.stop (ph : PoolHeap) (e : ParallelTaskExecutor) :
    PoolHeap × ParallelTaskExecutor × Except Exc Unit :=
  if e._own_executor then
    match e._executor with
    | Option.none => (ph, e, Except.error Exc.attributeError)
    | some r =>
        (PoolHeap.set ph r { PoolHeap.get ph r with isShutdown := true },
         { e with _executor := Option.none }, Except.ok ())
  else (ph, e, Except.ok ())

/-- Method `ParallelTaskExecutor.execute_task`: submits
`(_execute_task, task, arguments, progress_callback)` to
`self._executor`; with no pool present the attribute access on `None`
raises an AttributeError and no future is produced. -/
def ParallelTaskExecutor.execute_task (ph : PoolHeap) (e : ParallelTaskExecutor)
    (task : TaskObj) (arguments : Dict) (progress_callback : Cb) :
    Except Exc (PoolHeap × Future) :=
  match e._executor with
  | Option.none => Except.error Exc.attributeError
  | some r =>
      match Pool.submit (PoolHeap.get ph r)
          (Submission.execTask task arguments progress_callback) with
      | Except.ok pf => Except.ok (PoolHeap.set ph r pf.1, pf.2)
      | Except.error exc => Except.error exc

/-- Method `ParallelTaskExecutor.revert_task`: submits
`(_revert_task, task, arguments, result, failures, progress_callback)` to
`self._executor`; with no pool present the attribute access on `None`
raises an AttributeError and no future is produced. -/
def ParallelTaskExecutor.revert_task (ph : PoolHeap) (e : ParallelTaskExecutor)
    (task : TaskObj) (arguments : Dict) (result : V) (failures : V)
    (progress_callback : Cb) : Except Exc (PoolHeap × Future) :=
  match e._executor with
  | Option.none => Except.error Exc.attributeError
  | some r =>
      match Pool.submit (PoolHeap.get ph r)
          (Submission.revertTask task arguments result failures
            progress_callback) with
      | Except.ok pf => Except.ok (PoolHeap.set ph r pf.1, pf.2)
      | Except.error exc => Except.error exc

/-- A sample task whose `execute` returns `42` and whose `revert` returns
`None`, with a well-behaved `bind`. -/
def okTask : TaskObj :=
  { tid := 0, bindFault := Option.none,
    executeFn := fun _ => Except.ok (V.nat 42),
    revertFn := fun _ => Except.ok V.none }

/-- A sample task whose `execute` and `revert` raise a user fault. -/
def failTask : TaskObj :=
  { tid := 1, bindFault := Option.none,
    executeFn := fun _ => Except.error (Exc.user 3),
    revertFn := fun _ => Except.error (Exc.user 4) }

/-- A sample task whose `bind` itself raises. -/
def bindFailTask : TaskObj :=
  { tid := 2, bindFault := some (Exc.user 9),
    executeFn := fun _ => Except.ok (V.nat 42),
    revertFn := fun _ => Except.ok V.none }

/-- A one-cell dict heap whose cell 0 holds the mapping `{"x": 1}`. -/
def sampleHeap : Heap :=
  { cells := fun _ => [("x", V.nat 1)], next := 1 }

/-- A one-pool heap whose pool 0 is fresh (live, nothing submitted). -/
def onePoolHeap : PoolHeap :=
  { pools := fun _ => freshPool, next := 1 }

/-- The mapping `_revert_task` hands to `task.revert`: a copy of the
caller's arguments with `result` and `flow_failures` assigned. -/
def revertKwargs (h : Heap) (argsRef : Nat) (R F : V) : Dict :=
  dictSet (dictSet (Heap.get h argsRef) "result" R) "flow_failures" F

/-- The value `_revert_task` stores in the outcome: `revert`'s return value,
or a Failure capturing the raised fault. -/
def revertResult (task : TaskObj) (d : Dict) : V :=
  match task.revertFn d with
  | Except.ok v => v
  | Except.error e => V.fail e

/-! Helper lemmas shared by the claim theorems. -/

/-- Behaviour of `_autobind` when `task.bind` succeeds: the body runs
between exactly one bind event and one unbind event. -/
theorem autobind_bind_ok (task : TaskObj) (n : String) (cb : Cb)
    (body : TaskObj → List Ev × Except Exc V)
    (hbind : task.bindFault = Option.none) :
    _autobind task n cb body
      = (Ev.bind n cb :: (body task).1 ++ [Ev.unbind n cb], (body task).2) := by
  unfold _autobind
  rw [hbind]

/-- Behaviour of `_autobind` when `task.bind` raises: the `finally` still
unbinds once and the exception propagates. -/
theorem autobind_bind_fault (task : TaskObj) (n : String) (cb : Cb)
    (body : TaskObj → List Ev × Except Exc V) (E : Exc)
    (hbind : task.bindFault = some E) :
    _autobind task n cb body = ([Ev.unbind n cb], Except.error E) := by
  unfold _autobind
  rw [hbind]

/-- Looking up the key just assigned returns the assigned value. -/
theorem dictLookup_dictSet_self (d : Dict) (k : String) (v : V) :
    dictLookup (dictSet d k v) k = some v := by
  induction d with
  | nil => simp [dictSet, dictLookup]
  | cons p rest ih =>
      obtain ⟨k', v'⟩ := p
      by_cases hk : k' = k
      · simp [dictSet, hk, dictLookup]
      · simp [dictSet, hk, dictLookup, ih]

/-- Assigning one key leaves lookups of every other key unchanged. -/
theorem dictLookup_dictSet_ne (d : Dict) (k k2 : String) (v : V)
    (hne : k2 ≠ k) :
    dictLookup (dictSet d k v) k2 = dictLookup d k2 := by
  induction d with
  | nil => simp [dictSet, dictLookup, Ne.symm hne]
  | cons p rest ih =>
      obtain ⟨k', v'⟩ := p
      by_cases hk : k' = k
      · subst hk
        simp [dictSet, dictLookup, Ne.symm hne]
      · by_cases hk2 : k' = k2
        · simp [dictSet, hk, dictLookup, hk2, hne]
        · simp [dictSet, hk, dictLookup, hk2, ih]

/-- Claim C1: for every task whose `execute` raises a fault `E` (with a
well-behaved `bind`), the execute runner resolves to an outcome with verb
`"executed"` whose result is a Failure capturing `E`, and the exception is
never re-raised to the caller; consequently the serial `execute_task`
returns a completed future holding that outcome. -/
theorem execute_fault_normalized (task : TaskObj) (arguments : Dict) (cb : Cb)
    (E : Exc) (hbind : task.bindFault = Option.none)
    (hexec : task.executeFn arguments = Except.error E) :
    (_execute_task task arguments cb).2
        = Except.ok (task, "executed", V.fail E)
      ∧ (SerialTaskExecutor.execute_task task arguments cb).2
        = Except.ok (Future.completed (task, "executed", V.fail E)) := by
  have hrun : _execute_task task arguments cb
      = ([Ev.bind "update_progress" cb, Ev.executeCalled arguments,
          Ev.unbind "update_progress" cb],
         Except.ok (task, "executed", V.fail E)) := by
    unfold _execute_task
    rw [autobind_bind_ok _ _ _ _ hbind]
    simp [hexec]
  constructor
  · rw [hrun]
  · unfold SerialTaskExecutor.execute_task
    rw [hrun]

/-- Witness for claim C1 at a concrete raising task. -/
theorem execute_fault_normalized_witness :
    failTask.bindFault = Option.none
      ∧ failTask.executeFn [] = Except.error (Exc.user 3)
      ∧ (_execute_task failTask [] 0).2
          = Except.ok (failTask, "executed", V.fail (Exc.user 3)) :=
  ⟨rfl, rfl, (execute_fault_normalized failTask [] 0 (Exc.user 3) rfl rfl).1⟩

/-- Claim C9: if `task.bind` itself raises `E`, both runners let `E`
propagate to their caller (it is not normalised into a Failure outcome),
and `task.unbind` is still invoked exactly once. -/
theorem bind_fault_propagates (task : TaskObj) (arguments : Dict) (cb : Cb)
    (E : Exc) (h : Heap) (argsRef : Nat) (R F : V)
    (hbind : task.bindFault = some E) :
    _execute_task task arguments cb
        = ([Ev.unbind "update_progress" cb], Except.error E)
      ∧ (_revert_task task h argsRef R F cb).2
        = ([Ev.unbind "update_progress" cb], Except.error E) := by
  constructor
  · unfold _execute_task
    rw [autobind_bind_fault _ _ _ _ E hbind]
  · simp only [_revert_task]
    rw [autobind_bind_fault _ _ _ _ E hbind]

/-- Witness for claim C9 at a concrete task whose `bind` raises. -/
theorem bind_fault_propagates_witness :
    bindFailTask.bindFault = some (Exc.user 9)
      ∧ _execute_task bindFailTask [] 0
          = ([Ev.unbind "update_progress" 0], Except.error (Exc.user 9)) :=
  ⟨rfl,
   (bind_fault_propagates bindFailTask [] 0 (Exc.user 9) sampleHeap 0
      V.none V.none rfl).1⟩

/-- Characterisation of `_revert_task` when `task.bind` succeeds: the trace
is one bind, one revert call on the augmented copied mapping, one unbind;
the outcome is `(task, "reverted", revertResult)`; and every dict object
other than the freshly allocated copy is untouched. -/
theorem revert_task_parts (task : TaskObj) (h : Heap) (argsRef : Nat)
    (R F : V) (cb : Cb) (hbind : task.bindFault = Option.none) :
    (_revert_task task h argsRef R F cb).2.1
        = [Ev.bind "update_progress" cb,
           Ev.revertCalled (revertKwargs h argsRef R F),
           Ev.unbind "update_progress" cb]
      ∧ (_revert_task task h argsRef R F cb).2.2
        = Except.ok (task, "reverted",
            revertResult task (revertKwargs h argsRef R F))
      ∧ ∀ r, r ≠ h.next →
          Heap.get (_revert_task task h argsRef R F cb).1 r = Heap.get h r := by
  have hkw : Heap.get
      (Heap.update
        (Heap.update (Heap.alloc h (Heap.get h argsRef)).1
          (Heap.alloc h (Heap.get h argsRef)).2
          (fun d => dictSet d "result" R))
        (Heap.alloc h (Heap.get h argsRef)).2
        (fun d => dictSet d "flow_failures" F))
      (Heap.alloc h (Heap.get h argsRef)).2
      = revertKwargs h argsRef R F := by
    simp [Heap.get, Heap.alloc, Heap.update, revertKwargs]
  simp only [_revert_task]
  rw [autobind_bind_ok _ _ _ _ hbind]
  rw [hkw]
  cases hr : task.revertFn (revertKwargs h argsRef R F) with
  | ok v =>
      refine ⟨by simp, by simp [revertResult, hr], ?_⟩
      intro r hr2
      simp [Heap.get, Heap.update, Heap.alloc, hr2]
  | error e =>
      refine ⟨by simp, by simp [revertResult, hr], ?_⟩
      intro r hr2
      simp [Heap.get, Heap.update, Heap.alloc, hr2]

/-- Claim C3: for every task whose `bind` succeeds, each execute or revert
runner call binds the progress callback under `"update_progress"` exactly
once and unbinds it exactly once, whether the underlying `execute`/`revert`
returns normally or raises. -/
theorem progress_callback_unbound_once (task : TaskObj) (arguments : Dict)
    (cb : Cb) (h : Heap) (argsRef : Nat) (R F : V)
    (hbind : task.bindFault = Option.none) :
    (countUnbinds (_execute_task task arguments cb).1 "update_progress" = 1
      ∧ countBinds (_execute_task task arguments cb).1 "update_progress"
          = countUnbinds (_execute_task task arguments cb).1 "update_progress")
    ∧ (countUnbinds (_revert_task task h argsRef R F cb).2.1
          "update_progress" = 1
      ∧ countBinds (_revert_task task h argsRef R F cb).2.1 "update_progress"
          = countUnbinds (_revert_task task h argsRef R F cb).2.1
              "update_progress") := by
  have hex : (_execute_task task arguments cb).1
      = [Ev.bind "update_progress" cb, Ev.executeCalled arguments,
         Ev.unbind "update_progress" cb] := by
    unfold _execute_task
    rw [autobind_bind_ok _ _ _ _ hbind]
    cases hx : task.executeFn arguments <;> simp [hx]
  have hrv := (revert_task_parts task h argsRef R F cb hbind).1
  constructor
  · rw [hex]
    constructor <;> simp [countBinds, countUnbinds]
  · rw [hrv]
    constructor <;> simp [countBinds, countUnbinds]

/-- Witness for claim C3 at a concrete task whose `execute` raises. -/
theorem progress_callback_unbound_once_witness :
    failTask.bindFault = Option.none
      ∧ countUnbinds (_execute_task failTask [] 0).1 "update_progress" = 1 :=
  ⟨rfl,
   ((progress_callback_unbound_once failTask [] 0 sampleHeap 0
      V.none V.none rfl).1).1⟩

/-- Claim C2: `_revert_task` invokes `task.revert` with a mapping equal to
the caller's arguments extended with `"result" ↦ R` and
`"flow_failures" ↦ F`, and the caller's own arguments object is unmodified
after the call. -/
theorem revert_arguments_augmented (task : TaskObj) (h : Heap) (argsRef : Nat)
    (R F : V) (cb : Cb)
    (href : argsRef < h.next) (hbind : task.bindFault = Option.none) :
    Heap.get (_revert_task task h argsRef R F cb).1 argsRef
        = Heap.get h argsRef
      ∧ ∃ d, Ev.revertCalled d ∈ (_revert_task task h argsRef R F cb).2.1
          ∧ dictLookup d "result" = some R
          ∧ dictLookup d "flow_failures" = some F
          ∧ ∀ k, k ≠ "result" → k ≠ "flow_failures" →
              dictLookup d k = dictLookup (Heap.get h argsRef) k := by
  obtain ⟨htr, -, hheap⟩ := revert_task_parts task h argsRef R F cb hbind
  refine ⟨hheap argsRef (Nat.ne_of_lt href), ?_⟩
  refine ⟨revertKwargs h argsRef R F, ?_, ?_, ?_, ?_⟩
  · rw [htr]
    simp
  · unfold revertKwargs
    rw [dictLookup_dictSet_ne _ _ _ _ (by decide), dictLookup_dictSet_self]
  · unfold revertKwargs
    rw [dictLookup_dictSet_self]
  · intro k hk1 hk2
    unfold revertKwargs
    rw [dictLookup_dictSet_ne _ _ _ _ hk2, dictLookup_dictSet_ne _ _ _ _ hk1]

/-- Witness for claim C2 at the mapping of the spec's example,
`args = {"x": 1}`. -/
theorem revert_arguments_augmented_witness :
    (0 : Nat) < sampleHeap.next
      ∧ okTask.bindFault = Option.none
      ∧ Heap.get
          (_revert_task okTask sampleHeap 0 (V.nat 5) (V.str "F") 0).1 0
          = Heap.get sampleHeap 0 :=
  ⟨by decide, rfl,
   (revert_arguments_augmented okTask sampleHeap 0 (V.nat 5) (V.str "F") 0
      (by decide) rfl).1⟩

/-- Claim C7: when `execute` returns `v` without fault the runner's resolved
outcome is exactly `(task, "executed", v)` (and the serial `execute_task`
wraps it in a completed future); symmetrically, when `revert` returns `rv`
the revert runner's outcome is `(task, "reverted", rv)`. -/
theorem success_outcome_triples (task : TaskObj) (arguments : Dict) (cb : Cb)
    (v rv : V) (h : Heap) (argsRef : Nat) (R F : V)
    (hbind : task.bindFault = Option.none)
    (hexec : task.executeFn arguments = Except.ok v)
    (hrev : ∀ d, task.revertFn d = Except.ok rv) :
    (_execute_task task arguments cb).2 = Except.ok (task, "executed", v)
      ∧ (SerialTaskExecutor.execute_task task arguments cb).2
          = Except.ok (Future.completed (task, "executed", v))
      ∧ (_revert_task task h argsRef R F cb).2.2
          = Except.ok (task, "reverted", rv) := by
  have hrun : _execute_task task arguments cb
      = ([Ev.bind "update_progress" cb, Ev.executeCalled arguments,
          Ev.unbind "update_progress" cb],
         Except.ok (task, "executed", v)) := by
    unfold _execute_task
    rw [autobind_bind_ok _ _ _ _ hbind]
    simp [hexec]
  refine ⟨by rw [hrun], ?_, ?_⟩
  · unfold SerialTaskExecutor.execute_task
    rw [hrun]
  · rw [(revert_task_parts task h argsRef R F cb hbind).2.1]
    simp [revertResult, hrev]

/-- Witness for claim C7: the spec's scenario where `execute` returns 42. -/
theorem success_outcome_triples_witness :
    okTask.bindFault = Option.none
      ∧ okTask.executeFn [] = Except.ok (V.nat 42)
      ∧ (_execute_task okTask [] 0).2
          = Except.ok (okTask, "executed", V.nat 42)
      ∧ (_revert_task okTask sampleHeap 0 (V.nat 5) (V.str "F") 0).2.2
          = Except.ok (okTask, "reverted", V.none) := by
  have hmain := success_outcome_triples okTask [] 0 (V.nat 42) V.none
    sampleHeap 0 (V.nat 5) (V.str "F") rfl rfl (fun _ => rfl)
  exact ⟨rfl, rfl, hmain.1, hmain.2.2⟩

/-- Claim C6: the serial executor's `wait_for_any` returns the whole input
collection as the done part of the partition and an empty not-done part. -/
theorem serial_wait_for_any_partition (fs : List Future) :
    SerialTaskExecutor.wait_for_any fs = (fs, []) := rfl

/-- Claim C4: stopping a parallel executor built on a borrowed (externally
supplied) pool leaves the pool heap untouched and the pool usable for
further submission; conversely, for an executor that owns its pool,
`start()` then `stop()` leaves the created pool shut down and submission to
it raises. -/
theorem pool_ownership_on_stop (ph : PoolHeap) (r : Nat) (s : Submission)
    (hlive : (PoolHeap.get ph r).isShutdown = false) :
    ParallelTaskExecutor.stop ph (ParallelTaskExecutor.init (some r))
        = (ph, ParallelTaskExecutor.init (some r), Except.ok ())
      ∧ (Pool.submit (PoolHeap.get
            (ParallelTaskExecutor.stop ph
              (ParallelTaskExecutor.init (some r))).1 r) s).isOk = true
      ∧ (PoolHeap.get
            (ParallelTaskExecutor.stop
              (ParallelTaskExecutor.start ph
                (ParallelTaskExecutor.init Option.none)).1
              (ParallelTaskExecutor.start ph
                (ParallelTaskExecutor.init Option.none)).2).1
            ph.next).isShutdown = true
      ∧ Pool.submit (PoolHeap.get
            (ParallelTaskExecutor.stop
              (ParallelTaskExecutor.start ph
                (ParallelTaskExecutor.init Option.none)).1
              (ParallelTaskExecutor.start ph
                (ParallelTaskExecutor.init Option.none)).2).1
            ph.next) s
          = Except.error Exc.runtimeError := by
  refine ⟨rfl, ?_, ?_, ?_⟩
  · simp [ParallelTaskExecutor.stop, ParallelTaskExecutor.init,
      Pool.submit, hlive, Except.isOk, Except.toBool]
  · simp [ParallelTaskExecutor.start, ParallelTaskExecutor.stop,
      ParallelTaskExecutor.init, PoolHeap.get, PoolHeap.alloc, PoolHeap.set,
      freshPool]
  · simp [ParallelTaskExecutor.start, ParallelTaskExecutor.stop,
      ParallelTaskExecutor.init, PoolHeap.get, PoolHeap.alloc, PoolHeap.set,
      freshPool, Pool.submit]

/-- Witness for claim C4 with one live external pool. -/
theorem pool_ownership_on_stop_witness :
    (PoolHeap.get onePoolHeap 0).isShutdown = false
      ∧ ParallelTaskExecutor.stop onePoolHeap
          (ParallelTaskExecutor.init (some 0))
          = (onePoolHeap, ParallelTaskExecutor.init (some 0), Except.ok ())
      ∧ (PoolHeap.get
            (ParallelTaskExecutor.stop
              (ParallelTaskExecutor.start onePoolHeap
                (ParallelTaskExecutor.init Option.none)).1
              (ParallelTaskExecutor.start onePoolHeap
                (ParallelTaskExecutor.init Option.none)).2).1
            onePoolHeap.next).isShutdown = true := by
  have hmain := pool_ownership_on_stop onePoolHeap 0
    (Submission.execTask okTask [] 0) rfl
  exact ⟨rfl, hmain.1, hmain.2.2.1⟩

/-- Counterexample to claim C5 as stated: for a parallel executor that owns
its pool, calling `stop()` when nothing was started raises an
AttributeError (`self._executor` is `None`), so `stop()` is not error-free
for every executor. -/
theorem stop_before_start_errors :
    ParallelTaskExecutor.stop emptyPoolHeap
        (ParallelTaskExecutor.init Option.none)
      = (emptyPoolHeap, ParallelTaskExecutor.init Option.none,
         Except.error Exc.attributeError) := rfl

/-- Claim C5 amended: `stop()` is idempotent and error-free for serial
executors and for parallel executors with a borrowed pool, and it releases
only resources the executor created; but for an owning parallel executor,
`stop()` raises an AttributeError whenever no pool is present — before any
`start()`, or on a second `stop()` in a row (the first `stop()` succeeds
and shuts the owned pool down). -/
theorem stop_idempotent_amended (ph : PoolHeap) (r : Nat)
    (e : SerialTaskExecutor) :
    SerialTaskExecutor.stop e = (e, Except.ok ())
      ∧ ParallelTaskExecutor.stop ph (ParallelTaskExecutor.init (some r))
          = (ph, ParallelTaskExecutor.init (some r), Except.ok ())
      ∧ (ParallelTaskExecutor.stop ph
          (ParallelTaskExecutor.init Option.none)).2.2
          = Except.error Exc.attributeError
      ∧ (ParallelTaskExecutor.stop
            (ParallelTaskExecutor.start ph
              (ParallelTaskExecutor.init Option.none)).1
            (ParallelTaskExecutor.start ph
              (ParallelTaskExecutor.init Option.none)).2).2.2
          = Except.ok ()
      ∧ (ParallelTaskExecutor.stop
            (ParallelTaskExecutor.stop
              (ParallelTaskExecutor.start ph
                (ParallelTaskExecutor.init Option.none)).1
              (ParallelTaskExecutor.start ph
                (ParallelTaskExecutor.init Option.none)).2).1
            (ParallelTaskExecutor.stop
              (ParallelTaskExecutor.start ph
                (ParallelTaskExecutor.init Option.none)).1
              (ParallelTaskExecutor.start ph
                (ParallelTaskExecutor.init Option.none)).2).2.1).2.2
          = Except.error Exc.attributeError :=
  ⟨rfl, rfl, rfl, rfl, rfl⟩

/-- Counterexample to claim C8 as stated: for an owning parallel executor,
calling `start()` twice does not leave the system in the state of a single
`start()` — the second call allocates a second pool and abandons the first,
still-live one. -/
theorem double_start_not_single_start :
    ParallelTaskExecutor.start
        (ParallelTaskExecutor.start emptyPoolHeap
          (ParallelTaskExecutor.init Option.none)).1
        (ParallelTaskExecutor.start emptyPoolHeap
          (ParallelTaskExecutor.init Option.none)).2
      ≠ ParallelTaskExecutor.start emptyPoolHeap
          (ParallelTaskExecutor.init Option.none) := by
  intro hcontra
  have hnext := congrArg (fun q => q.1.next) hcontra
  simp [ParallelTaskExecutor.start, ParallelTaskExecutor.init,
    PoolHeap.alloc, emptyPoolHeap] at hnext

/-- Claim C8 amended: `start()` is idempotent for serial executors and for
parallel executors with a borrowed pool (in both cases it changes nothing);
for an owning parallel executor, a second `start()` installs a second fresh
pool and leaks the first one, which stays allocated and is never shut down,
so the state after two starts is not that of a single start even though the
executor again holds a fresh working pool. -/
theorem start_idempotent_amended (ph : PoolHeap) (r : Nat)
    (e : SerialTaskExecutor) :
    SerialTaskExecutor.start e = (e, Except.ok ())
      ∧ ParallelTaskExecutor.start ph (ParallelTaskExecutor.init (some r))
          = (ph, ParallelTaskExecutor.init (some r))
      ∧ (ParallelTaskExecutor.start
            (ParallelTaskExecutor.start ph
              (ParallelTaskExecutor.init Option.none)).1
            (ParallelTaskExecutor.start ph
              (ParallelTaskExecutor.init Option.none)).2).2._executor
          = some (ph.next + 1)
      ∧ (ParallelTaskExecutor.start
            (ParallelTaskExecutor.start ph
              (ParallelTaskExecutor.init Option.none)).1
            (ParallelTaskExecutor.start ph
              (ParallelTaskExecutor.init Option.none)).2).1.next
          = ph.next + 2
      ∧ PoolHeap.get (ParallelTaskExecutor.start
            (ParallelTaskExecutor.start ph
              (ParallelTaskExecutor.init Option.none)).1
            (ParallelTaskExecutor.start ph
              (ParallelTaskExecutor.init Option.none)).2).1 ph.next
          = freshPool
      ∧ PoolHeap.get (ParallelTaskExecutor.start
            (ParallelTaskExecutor.start ph
              (ParallelTaskExecutor.init Option.none)).1
            (ParallelTaskExecutor.start ph
              (ParallelTaskExecutor.init Option.none)).2).1 (ph.next + 1)
          = freshPool := by
  refine ⟨rfl, rfl, rfl, rfl, ?_, ?_⟩
  · simp [ParallelTaskExecutor.start, ParallelTaskExecutor.init,
      PoolHeap.get, PoolHeap.alloc]
  · simp [ParallelTaskExecutor.start, ParallelTaskExecutor.init,
      PoolHeap.get, PoolHeap.alloc]

/-- Claim C10: an owning parallel executor used before `start()` (or after
`start()` then `stop()`) has no pool (`self._executor` is `None`), so both
`execute_task` and `revert_task` raise an AttributeError instead of
returning a future. -/
theorem submit_without_pool_fails (ph : PoolHeap) (task : TaskObj)
    (arguments : Dict) (cb : Cb) (R F : V) :
    ParallelTaskExecutor.execute_task ph
        (ParallelTaskExecutor.init Option.none) task arguments cb
        = Except.error Exc.attributeError
      ∧ ParallelTaskExecutor.revert_task ph
          (ParallelTaskExecutor.init Option.none) task arguments R F cb
          = Except.error Exc.attributeError
      ∧ ParallelTaskExecutor.execute_task
          (ParallelTaskExecutor.stop
            (ParallelTaskExecutor.start ph
              (ParallelTaskExecutor.init Option.none)).1
            (ParallelTaskExecutor.start ph
              (ParallelTaskExecutor.init Option.none)).2).1
          (ParallelTaskExecutor.stop
            (ParallelTaskExecutor.start ph
              (ParallelTaskExecutor.init Option.none)).1
            (ParallelTaskExecutor.start ph
              (ParallelTaskExecutor.init Option.none)).2).2.1
          task arguments cb
          = Except.error Exc.attributeError
      ∧ ParallelTaskExecutor.revert_task
          (ParallelTaskExecutor.stop
            (ParallelTaskExecutor.start ph
              (ParallelTaskExecutor.init Option.none)).1
            (ParallelTaskExecutor.start ph
              (ParallelTaskExecutor.init Option.none)).2).1
          (ParallelTaskExecutor.stop
            (ParallelTaskExecutor.start ph
              (ParallelTaskExecutor.init Option.none)).1
            (ParallelTaskExecutor.start ph
              (ParallelTaskExecutor.init Option.none)).2).2.1
          task arguments R F cb
          = Except.error Exc.attributeError :=
  ⟨rfl, rfl, rfl, rfl⟩
